import Mathlib

/-!
Verification of the Alert Analytics Dashboard (`alert_dashboard.py`).

The dashboard is a single linear pipeline: generate a mock table of alert
events, filter it by date interval / fleets / alert types / vessels, and
compute a fixed set of aggregations from the filtered table.  This file
shallowly embeds that pipeline over `List AlertEvent` and proves or refutes
the specified properties.

Modelling conventions:
* A pandas `DataFrame` of alert events is a `List AlertEvent`.
* A pandas `Timestamp` is the `Int` ordinal of its calendar day
  (`daysFromCivil` of its year/month/day); `timedelta(days = k)` is
  subtraction of `k` on ordinals.
* Floating point `NaN` (the value pandas produces for the mean of an empty
  series and for `0 / 0`) is `Option.none`; a finite float is `some q` with
  `q : ℚ`.  `round(x, n)` (NumPy/Python round-half-to-even) is `npRound`.
* The pseudo-random source (`np.random`) is an oracle of arbitrary natural
  /rational/boolean draws; each documented distribution is modelled by its
  support: `np.random.randint(5, 15)` has support `{5, …, 14}` (upper bound
  exclusive), `np.random.choice(xs)` has support `xs`, and
  `round(np.random.exponential(2), 2)` is a nonnegative rational.
* `Series.sort_values(ascending=False)` / `value_counts()` order
  descending with the default `kind='quicksort'`, whose tie order pandas
  leaves unspecified (the default kind is not stable).  The embedding
  realises these orderings with the deterministic insertion sort
  `insSort`; only tie-order-insensitive properties (membership, counts,
  descending order) are ever read off an ordering realised this way.
-/

/-- One generated alert row (one row of the mock DataFrame).  `resBin` models
the `ResBin` column added in place by the resolution-time-distribution
section; it does not exist (is `none`) until that assignment runs. -/
structure AlertEvent where
  date : Int
  fleet : String
  vessel : String
  alertType : String
  resolutionHours : ℚ
  autoCleared : Bool
  resBin : Option (Fin 6) := none
deriving DecidableEq, Repr

/-- The 4 fleets. -/
def fleets : List String := ["Fleet A", "Fleet B", "Fleet C", "Fleet D"]

/-- The 20 vessel identifiers `Vessel_1 … Vessel_20`. -/
def vessels : List String := (List.range 20).map (fun i => "Vessel_" ++ toString (i + 1))

/-- The 7 alert types. -/
def alertTypes : List String :=
  ["Speeding", "Late Report", "Excess Slip", "Bilge ROB", "Sludge ROB",
   "AE Usage", "Shaft Generator Usage"]

/-- A calendar date (pandas `Timestamp` components). -/
structure Civil where
  year : Int
  month : Int
  day : Int
deriving DecidableEq, Repr

/-- Day ordinal of a civil date (days since 1970-01-01, standard civil
calendar conversion); embeds pandas `Timestamp` comparison and `timedelta`
arithmetic into `Int`. -/
def daysFromCivil (c : Civil) : Int :=
  let y := if c.month ≤ 2 then c.year - 1 else c.year
  let era := (if 0 ≤ y then y else y - 399) / 400
  let yoe := y - era * 400
  let mp := (c.month + 9) % 12
  let doy := (153 * mp + 2) / 5 + c.day - 1
  let doe := yoe * 365 + yoe / 4 - yoe / 100 + doy
  era * 146097 + doe - 719468

/-- `base_date = pd.to_datetime("2025-01-01")` as a day ordinal. -/
def baseOrd : Int := daysFromCivil ⟨2025, 1, 1⟩

/-- The pseudo-random source: for day index `i` and row index `j`, the raw
draws the generator consumes.  Faithfulness to `np.random` is by support
(see the header). -/
structure RandomOracle where
  cnt : Nat → Nat
  fleetChoice : Nat → Nat → Nat
  vesselChoice : Nat → Nat → Nat
  typeChoice : Nat → Nat → Nat
  resTime : Nat → Nat → ℚ
  autoChoice : Nat → Nat → Bool

/-- Number of rows generated for one day: `np.random.randint(5, 15)` draws
uniformly from the integers `5 ≤ n < 15`, so its support is `{5, …, 14}`;
`5 + r % 10` ranges over exactly that support as the raw draw `r` ranges
over `ℕ`. -/
def rowsPerDay (r : Nat) : Nat := 5 + r % 10

/-- The rows generated for day index `i` (date `base_date + i`). -/
def genDay (o : RandomOracle) (i : Nat) : List AlertEvent :=
  (List.range (rowsPerDay (o.cnt i))).map (fun j =>
    { date := baseOrd + i
      fleet := fleets.getD (o.fleetChoice i j % fleets.length) ""
      vessel := vessels.getD (o.vesselChoice i j % vessels.length) ""
      alertType := alertTypes.getD (o.typeChoice i j % alertTypes.length) ""
      resolutionHours := o.resTime i j
      autoCleared := o.autoChoice i j })

/-- The full mock table: `pd.date_range(base, base + 120 days)` is 121
calendar days, each contributing `genDay`. -/
def genData (o : RandomOracle) : List AlertEvent :=
  ((List.range 121).map (genDay o)).flatten

/-- `df["Date"].max()` — the anchor the period presets use ("today"). -/
def todayOf (df : List AlertEvent) : Option Int := (df.map (·.date)).max?

/-- The five period presets of the sidebar. -/
inductive Period where
  | last7 | last30 | qtd | ytd | custom (s e : Int)
deriving DecidableEq, Repr

/-- Start ordinal of the filter interval for a preset, given `today`
(the dataset's maximum date) as a civil date. -/
def presetStart (p : Period) (t : Civil) : Int :=
  match p with
  | .last7 => daysFromCivil t - 7
  | .last30 => daysFromCivil t - 30
  | .qtd => daysFromCivil ⟨t.year, (t.month - 1) / 3 * 3 + 1, 1⟩
  | .ytd => daysFromCivil ⟨t.year, 1, 1⟩
  | .custom s _ => s

/-- End ordinal of the filter interval for a preset. -/
def presetEnd (p : Period) (t : Civil) : Int :=
  match p with
  | .custom _ e => e
  | _ => daysFromCivil t

/-- `df[(df['Date'] >= start) & (df['Date'] <= end)]`. -/
def filterDate (s e : Int) (df : List AlertEvent) : List AlertEvent :=
  df.filter (fun r => decide (s ≤ r.date) && decide (r.date ≤ e))

/-- `df[df['Fleet'].isin(selected_fleets)]`. -/
def filterFleets (sel : List String) (df : List AlertEvent) : List AlertEvent :=
  df.filter (fun r => sel.contains r.fleet)

/-- `df[df['Alert Type'].isin(selected_alerts)]`. -/
def filterTypes (sel : List String) (df : List AlertEvent) : List AlertEvent :=
  df.filter (fun r => sel.contains r.alertType)

/-- `df[df['Vessel'].isin(selected_vessels)]`. -/
def filterVessels (sel : List String) (df : List AlertEvent) : List AlertEvent :=
  df.filter (fun r => sel.contains r.vessel)

/-- The filter pipeline in source order: date interval, then fleets, then
alert types, then vessels. -/
def filteredSet (df : List AlertEvent) (s e : Int)
    (fl al vs : List String) : List AlertEvent :=
  filterVessels vs (filterTypes al (filterFleets fl (filterDate s e df)))

/-- Round-half-to-even of a rational to an integer (the rounding mode of
Python's `round` and NumPy's `round`). -/
def roundHalfEven (x : ℚ) : ℤ :=
  let f := ⌊x⌋
  if x - f < 1 / 2 then f
  else if 1 / 2 < x - f then f + 1
  else if f % 2 = 0 then f else f + 1

/-- `round(x, d)`: round-half-to-even at `d` decimal places. -/
def npRound (d : Nat) (x : ℚ) : ℚ := (roundHalfEven (x * 10 ^ d) : ℚ) / 10 ^ d

/-- `Series.mean()`: `NaN` (= `none`) on an empty series, else the mean. -/
def seriesMean (l : List ℚ) : Option ℚ :=
  if l.isEmpty then none else some (l.sum / l.length)

/-- `total_alerts = len(df)`. -/
def totalAlerts (df : List AlertEvent) : Nat := df.length

/-- `vessels_with_alerts = df['Vessel'].nunique()`. -/
def vesselsWithAlerts (df : List AlertEvent) : Nat := (df.map (·.vessel)).dedup.length

/-- `auto_cleared_percent = round(df['Auto-Cleared'].mean() * 100, 1)`
(booleans average as 0/1; `NaN` propagates through `round`). -/
def autoClearedPercent (df : List AlertEvent) : Option ℚ :=
  (seriesMean (df.map (fun r => if r.autoCleared then 1 else 0))).map
    (fun m => npRound 1 (m * 100))

/-- `avg_resolution = round(df['Resolution Time (hrs)'].mean(), 2)`. -/
def avgResolution (df : List AlertEvent) : Option ℚ :=
  (seriesMean (df.map (·.resolutionHours))).map (npRound 2)

/-- `active_alerts = len(df[~df['Auto-Cleared']])`. -/
def activeAlerts (df : List AlertEvent) : Nat :=
  (df.filter (fun r => !r.autoCleared)).length

/-- `resolved_alerts = len(df[df['Auto-Cleared']])`. -/
def resolvedAlerts (df : List AlertEvent) : Nat :=
  (df.filter (fun r => r.autoCleared)).length

/-- `within_sla_pct = round((df['Resolution Time (hrs)'] <= 2).mean() * 100, 1)`. -/
def withinSlaPct (df : List AlertEvent) : Option ℚ :=
  (seriesMean (df.map (fun r => if r.resolutionHours ≤ 2 then 1 else 0))).map
    (fun m => npRound 1 (m * 100))

/-- `resolution_rate = round((df['Auto-Cleared'].sum() / len(df)) * 100, 1)` —
NumPy evaluates `0 / 0` to `NaN` (= `none`) when `df` is empty. -/
def resolutionRate (df : List AlertEvent) : Option ℚ :=
  if df.length = 0 then none
  else some (npRound 1 ((df.countP (·.autoCleared) : ℚ) / (df.length : ℚ) * 100))

/-- C1.  On an empty filtered set the total-alert count is 0 and nothing
raises, but the four ratio KPIs evaluate to `NaN` (`none`) — pandas's mean
of an empty series and NumPy's `0 / 0` — not to the defined placeholder 0
that the specification requires. -/
theorem c1_empty_filtered_kpis :
    totalAlerts [] = 0 ∧ activeAlerts [] = 0 ∧ resolvedAlerts [] = 0 ∧
    vesselsWithAlerts [] = 0 ∧
    autoClearedPercent [] = none ∧ avgResolution [] = none ∧
    withinSlaPct [] = none ∧ resolutionRate [] = none ∧
    (∀ df s e fl al vs, e < s →
      filteredSet df s e fl al vs = [] ∧
      totalAlerts (filteredSet df s e fl al vs) = 0 ∧
      autoClearedPercent (filteredSet df s e fl al vs) = none ∧
      avgResolution (filteredSet df s e fl al vs) = none ∧
      withinSlaPct (filteredSet df s e fl al vs) = none ∧
      resolutionRate (filteredSet df s e fl al vs) = none) := by
  refine ⟨rfl, rfl, rfl, rfl, rfl, rfl, rfl, rfl, ?_⟩
  intro df s e fl al vs hlt
  have hdate : filterDate s e df = [] := by
    simp only [filterDate, List.filter_eq_nil_iff]
    intro r _
    simp only [Bool.and_eq_true, decide_eq_true_eq, not_and]
    intro hs he
    omega
  have h0 : filteredSet df s e fl al vs = [] := by
    simp [filteredSet, hdate, filterFleets, filterTypes, filterVessels]
  refine ⟨h0, ?_, ?_, ?_, ?_, ?_⟩ <;> rw [h0] <;> rfl

/-- C1 witness: the degenerate custom range 2025-05-02 … 2025-05-01
(start after end) on a one-row table yields the empty filtered set and the
`NaN` ratio KPIs. -/
theorem c1_empty_filtered_kpis_witness :
    filteredSet [{ date := baseOrd, fleet := "Fleet A", vessel := "Vessel_1",
                   alertType := "Speeding", resolutionHours := 1,
                   autoCleared := true }]
      (daysFromCivil ⟨2025, 5, 2⟩) (daysFromCivil ⟨2025, 5, 1⟩)
      fleets alertTypes vessels = [] :=
  (c1_empty_filtered_kpis.2.2.2.2.2.2.2.2 _ _ _ _ _ _ (by decide)).1

/-- The conjunction of the four filter predicates, as one Boolean test. -/
def filterConj (s e : Int) (fl al vs : List String) (r : AlertEvent) : Bool :=
  decide (s ≤ r.date) && decide (r.date ≤ e) && fl.contains r.fleet &&
    al.contains r.alertType && vs.contains r.vessel

/-- C2.  The filter pipeline keeps exactly the rows satisfying the
conjunction of the four membership predicates, its size is the count of
such rows, and an empty selected set for any dimension yields zero rows. -/
theorem c2_filter_conjunction (df : List AlertEvent) (s e : Int)
    (fl al vs : List String) :
    (∀ r, r ∈ filteredSet df s e fl al vs ↔
        r ∈ df ∧ s ≤ r.date ∧ r.date ≤ e ∧
          r.fleet ∈ fl ∧ r.alertType ∈ al ∧ r.vessel ∈ vs) ∧
    (filteredSet df s e fl al vs).length = df.countP (filterConj s e fl al vs) ∧
    (fl = [] → filteredSet df s e fl al vs = []) ∧
    (al = [] → filteredSet df s e fl al vs = []) ∧
    (vs = [] → filteredSet df s e fl al vs = []) := by
  have hset : filteredSet df s e fl al vs = df.filter (filterConj s e fl al vs) := by
    simp only [filteredSet, filterVessels, filterTypes, filterFleets, filterDate,
      List.filter_filter]
    congr 1
    funext r
    simp only [filterConj]
    cases hd1 : decide (s ≤ r.date) <;> cases hd2 : decide (r.date ≤ e) <;>
      cases hf : fl.contains r.fleet <;> cases ha : al.contains r.alertType <;>
      cases hv : vs.contains r.vessel <;> rfl
  refine ⟨?_, ?_, ?_, ?_, ?_⟩
  · intro r
    rw [hset, List.mem_filter]
    simp only [filterConj, Bool.and_eq_true, decide_eq_true_eq, List.contains,
      List.elem_iff]
    tauto
  · rw [hset, List.countP_eq_length_filter]
  · intro h
    rw [hset, List.filter_eq_nil_iff]
    intro r _
    simp [filterConj, h]
  · intro h
    rw [hset, List.filter_eq_nil_iff]
    intro r _
    simp [filterConj, h]
  · intro h
    rw [hset, List.filter_eq_nil_iff]
    intro r _
    simp [filterConj, h]

/-- C2 witness: on a two-row table with the interval [baseOrd, baseOrd]
and full vocabularies, the pipeline keeps exactly the matching row, and an
empty fleet selection keeps nothing. -/
theorem c2_filter_conjunction_witness :
    (filteredSet
        [{ date := baseOrd, fleet := "Fleet A", vessel := "Vessel_1",
           alertType := "Speeding", resolutionHours := 1, autoCleared := true },
         { date := baseOrd + 1, fleet := "Fleet B", vessel := "Vessel_2",
           alertType := "AE Usage", resolutionHours := 2, autoCleared := false }]
        baseOrd baseOrd fleets alertTypes vessels).length =
      (List.countP (filterConj baseOrd baseOrd fleets alertTypes vessels)
        [{ date := baseOrd, fleet := "Fleet A", vessel := "Vessel_1",
           alertType := "Speeding", resolutionHours := 1, autoCleared := true },
         { date := baseOrd + 1, fleet := "Fleet B", vessel := "Vessel_2",
           alertType := "AE Usage", resolutionHours := 2, autoCleared := false }]) ∧
    filteredSet
        [{ date := baseOrd, fleet := "Fleet A", vessel := "Vessel_1",
           alertType := "Speeding", resolutionHours := 1, autoCleared := true }]
        baseOrd baseOrd [] alertTypes vessels = [] :=
  ⟨(c2_filter_conjunction _ baseOrd baseOrd fleets alertTypes vessels).2.1,
   (c2_filter_conjunction _ baseOrd baseOrd [] alertTypes vessels).2.2.1 rfl⟩

/-- C3 counterexample: the generator can never produce 15 rows for a day —
`np.random.randint(5, 15)` excludes its upper bound, so the per-day row
count `rowsPerDay` never reaches 15 for any raw draw. -/
theorem c3_never_fifteen :
    ¬ (∃ r : Nat, rowsPerDay r = 15) := by
  rintro ⟨r, hr⟩
  have : r % 10 < 10 := Nat.mod_lt _ (by decide)
  simp only [rowsPerDay] at hr
  omega

/-- C3 (amended).  Each generated day holds between 5 and 14 rows
inclusive, and every generated row draws its fleet, vessel and alert type
from the fixed vocabularies. -/
theorem c3_rows_per_day_bounds (o : RandomOracle) (i : Nat) :
    5 ≤ (genDay o i).length ∧ (genDay o i).length ≤ 14 ∧
    (∀ r ∈ genDay o i,
      r.fleet ∈ fleets ∧ r.vessel ∈ vessels ∧ r.alertType ∈ alertTypes ∧
      r.date = baseOrd + i) := by
  have hlen : (genDay o i).length = rowsPerDay (o.cnt i) := by
    simp [genDay]
  have hmod : o.cnt i % 10 < 10 := Nat.mod_lt _ (by decide)
  refine ⟨?_, ?_, ?_⟩
  · rw [hlen]; simp [rowsPerDay]
  · rw [hlen]; simp only [rowsPerDay]; omega
  · intro r hr
    simp only [genDay, List.mem_map] at hr
    obtain ⟨j, _, rfl⟩ := hr
    refine ⟨?_, ?_, ?_, rfl⟩
    · rw [List.getD_eq_getElem fleets "" (Nat.mod_lt _ (by simp [fleets]))]
      exact List.getElem_mem _
    · rw [List.getD_eq_getElem vessels "" (Nat.mod_lt _ (by simp [vessels]))]
      exact List.getElem_mem _
    · rw [List.getD_eq_getElem alertTypes "" (Nat.mod_lt _ (by simp [alertTypes]))]
      exact List.getElem_mem _

/-- C3 witness: the all-zero oracle generates exactly 5 rows on day 0, all
within bounds and vocabularies. -/
theorem c3_rows_per_day_bounds_witness :
    5 ≤ (genDay ⟨fun _ => 0, fun _ _ => 0, fun _ _ => 0, fun _ _ => 0,
                 fun _ _ => 0, fun _ _ => true⟩ 0).length ∧
    (genDay ⟨fun _ => 0, fun _ _ => 0, fun _ _ => 0, fun _ _ => 0,
             fun _ _ => 0, fun _ _ => true⟩ 0).length ≤ 14 :=
  ⟨(c3_rows_per_day_bounds _ 0).1, (c3_rows_per_day_bounds _ 0).2.1⟩

/-- Insert `x` into `l` before the first element `y` with `le x y`
(insertion step of `insSort`). -/
def insSorted (le : α → α → Bool) (x : α) : List α → List α
  | [] => [x]
  | y :: ys => if le x y then x :: y :: ys else y :: insSorted le x ys

/-- Insertion sort by the Boolean relation `le`; one deterministic
realisation of the orderings of `Series.sort_values` / `value_counts` /
`DataFrame.sort_values` (descending contract only — pandas' default sort
kind leaves the tie order unspecified) and of the sorted `groupby`
index (where keys are distinct, so ties cannot arise). -/
def insSort (le : α → α → Bool) : List α → List α
  | [] => []
  | x :: xs => insSorted le x (insSort le xs)

theorem mem_insSorted (le : α → α → Bool) (x a : α) (l : List α) :
    a ∈ insSorted le x l ↔ a = x ∨ a ∈ l := by
  induction l with
  | nil => simp [insSorted]
  | cons y ys ih =>
    simp only [insSorted]
    by_cases h : le x y = true
    · simp [h]
    · simp only [if_neg h, List.mem_cons, ih]
      tauto

theorem mem_insSort (le : α → α → Bool) (a : α) (l : List α) :
    a ∈ insSort le l ↔ a ∈ l := by
  induction l with
  | nil => simp [insSort]
  | cons x xs ih => simp [insSort, mem_insSorted, ih]

theorem length_insSorted (le : α → α → Bool) (x : α) (l : List α) :
    (insSorted le x l).length = l.length + 1 := by
  induction l with
  | nil => simp [insSorted]
  | cons y ys ih =>
    simp only [insSorted]
    by_cases h : le x y = true
    · simp [h]
    · simp [if_neg h, ih]

theorem length_insSort (le : α → α → Bool) (l : List α) :
    (insSort le l).length = l.length := by
  induction l with
  | nil => rfl
  | cons x xs ih => simp [insSort, length_insSorted, ih]

theorem sorted_insSorted (le : α → α → Bool)
    (htot : ∀ a b, le a b = true ∨ le b a = true)
    (htrans : ∀ a b c, le a b = true → le b c = true → le a c = true)
    (x : α) (l : List α) (h : l.Pairwise (fun a b => le a b = true)) :
    (insSorted le x l).Pairwise (fun a b => le a b = true) := by
  induction l with
  | nil => simp [insSorted]
  | cons y ys ih =>
    rcases List.pairwise_cons.mp h with ⟨hy, hys⟩
    simp only [insSorted]
    by_cases hxy : le x y = true
    · rw [if_pos hxy]
      refine List.pairwise_cons.mpr ⟨?_, h⟩
      intro b hb
      rcases List.mem_cons.mp hb with rfl | hb
      · exact hxy
      · exact htrans x y b hxy (hy b hb)
    · have hyx : le y x = true := (htot x y).resolve_left hxy
      rw [if_neg hxy]
      refine List.pairwise_cons.mpr ⟨?_, ih hys⟩
      intro b hb
      rcases (mem_insSorted le x b ys).mp hb with rfl | hb
      · exact hyx
      · exact hy b hb

theorem sorted_insSort (le : α → α → Bool)
    (htot : ∀ a b, le a b = true ∨ le b a = true)
    (htrans : ∀ a b c, le a b = true → le b c = true → le a c = true)
    (l : List α) :
    (insSort le l).Pairwise (fun a b => le a b = true) := by
  induction l with
  | nil => simp [insSort]
  | cons x xs ih => exact sorted_insSorted le htot htrans x _ ih

/-- Ascending sort on `Int` (the sorted index `groupby` produces). -/
def sortAscInt (l : List Int) : List Int := insSort (fun a b => decide (a ≤ b)) l

/-- The distinct dates of a table, ascending —
the index of `df.groupby("Date")`. -/
def groupDates (df : List AlertEvent) : List Int :=
  sortAscInt (df.map (·.date)).dedup

/-- `df.groupby("Date").size()` for one date. -/
def sizeOn (df : List AlertEvent) (d : Int) : Nat :=
  df.countP (fun r => decide (r.date = d))

/-- `df.groupby("Date").size().reset_index(...)` as an association list. -/
def dateGroupSizes (df : List AlertEvent) : List (Int × Nat) :=
  (groupDates df).map (fun d => (d, sizeOn df d))

/-- Look up a date in a grouped count (`merge(..., how="left")`) with the
missing case filled by zero (`fillna(0)`). -/
def lookupFill0 (g : List (Int × Nat)) (d : Int) : Nat :=
  ((g.find? (fun p => decide (p.1 = d))).map Prod.snd).getD 0

/-- One row of `alerts_time_df` after the two left merges. -/
structure TimePoint where
  date : Int
  total : Nat
  active : Nat
  resolved : Nat
deriving DecidableEq, Repr

/-- `alerts_time_df`: per-day totals left-merged with the per-day sizes of
the active (`~Auto-Cleared`) and resolved (`Auto-Cleared`) subsets,
missing dates filled with zero. -/
def alertsTime (df : List AlertEvent) : List TimePoint :=
  (groupDates df).map (fun d =>
    { date := d
      total := sizeOn df d
      active := lookupFill0 (dateGroupSizes (df.filter (fun r => !r.autoCleared))) d
      resolved := lookupFill0 (dateGroupSizes (df.filter (fun r => r.autoCleared))) d })

theorem countP_split (l : List α) (p q : α → Bool) :
    l.countP p = l.countP (fun a => p a && q a) + l.countP (fun a => p a && !q a) := by
  induction l with
  | nil => rfl
  | cons x xs ih =>
    simp only [List.countP_cons]
    cases hp : p x <;> cases hq : q x <;> simp [ih] <;> omega

theorem lookupFill0_dateGroupSizes (sub : List AlertEvent) (d : Int) :
    lookupFill0 (dateGroupSizes sub) d = sizeOn sub d := by
  by_cases hmem : d ∈ groupDates sub
  · have hfind :
        (dateGroupSizes sub).find? (fun p => decide (p.1 = d)) = some (d, sizeOn sub d) := by
      rw [dateGroupSizes, List.find?_map]
      have hsome : ((groupDates sub).find? (fun d' => decide (d' = d))).isSome := by
        rw [List.find?_isSome]
        exact ⟨d, hmem, by simp⟩
      obtain ⟨d', hd'⟩ := Option.isSome_iff_exists.mp hsome
      have hdd : d' = d := by simpa using List.find?_some hd'
      subst hdd
      have hcomp : List.find?
          ((fun p => decide (p.1 = d')) ∘ fun x => (x, sizeOn sub x))
          (groupDates sub) = some d' := hd'
      rw [hcomp]
      rfl
    simp [lookupFill0, hfind]
  · have hz : sizeOn sub d = 0 := by
      rw [sizeOn, List.countP_eq_zero]
      intro r hr
      simp only [decide_eq_true_eq]
      intro hdate
      exact hmem (by
        simp only [groupDates, sortAscInt, mem_insSort, List.mem_dedup, List.mem_map]
        exact ⟨r, hr, hdate⟩)
    have hfind : (dateGroupSizes sub).find? (fun p => decide (p.1 = d)) = none := by
      rw [List.find?_eq_none]
      rintro ⟨d', c⟩ hp
      simp only [dateGroupSizes, List.mem_map] at hp
      obtain ⟨d'', hd'', heq⟩ := hp
      cases heq
      simp only [decide_eq_true_eq]
      intro h
      exact hmem (h ▸ hd'')
    simp [lookupFill0, hfind, hz]

/-- C4.  In `alerts_time_df`, every row's total is the per-day row count of
the filtered data, its active and resolved entries are the per-day counts
of the active and resolved subsets (zero-filled through the left merge when
the date is absent from a subset), and active + resolved = total. -/
theorem c4_active_plus_resolved (df : List AlertEvent) :
    ∀ tp ∈ alertsTime df,
      tp.total = df.countP (fun r => decide (r.date = tp.date)) ∧
      tp.active = df.countP (fun r => decide (r.date = tp.date) && !r.autoCleared) ∧
      tp.resolved = df.countP (fun r => decide (r.date = tp.date) && r.autoCleared) ∧
      tp.active + tp.resolved = tp.total := by
  intro tp htp
  simp only [alertsTime, List.mem_map] at htp
  obtain ⟨d, _, rfl⟩ := htp
  simp only
  have hact : lookupFill0 (dateGroupSizes (df.filter (fun r => !r.autoCleared))) d =
      df.countP (fun r => decide (r.date = d) && !r.autoCleared) := by
    rw [lookupFill0_dateGroupSizes, sizeOn, List.countP_filter]
  have hres : lookupFill0 (dateGroupSizes (df.filter (fun r => r.autoCleared))) d =
      df.countP (fun r => decide (r.date = d) && r.autoCleared) := by
    rw [lookupFill0_dateGroupSizes, sizeOn, List.countP_filter]
  refine ⟨rfl, hact, hres, ?_⟩
  rw [hact, hres, sizeOn]
  rw [countP_split df (fun r => decide (r.date = d)) (fun r => !r.autoCleared)]
  simp only [Bool.not_not]

/-- C4 witness: on a three-row, two-day table, the second day's time-series
entry — a single active alert whose date is absent from the resolved
grouping and is zero-filled — satisfies active + resolved = total. -/
theorem c4_active_plus_resolved_witness :
    (⟨baseOrd + 1, 1, 1, 0⟩ : TimePoint).active +
        (⟨baseOrd + 1, 1, 1, 0⟩ : TimePoint).resolved =
      (⟨baseOrd + 1, 1, 1, 0⟩ : TimePoint).total :=
  (c4_active_plus_resolved
    [{ date := baseOrd, fleet := "Fleet A", vessel := "Vessel_1",
       alertType := "Speeding", resolutionHours := 1, autoCleared := true },
     { date := baseOrd, fleet := "Fleet B", vessel := "Vessel_2",
       alertType := "AE Usage", resolutionHours := 2, autoCleared := false },
     { date := baseOrd + 1, fleet := "Fleet C", vessel := "Vessel_3",
       alertType := "Late Report", resolutionHours := 3, autoCleared := false }]
    ⟨baseOrd + 1, 1, 1, 0⟩ (by decide)).2.2.2

/-- `pd.cut(x, bins=[0, 0.25, 1, 3, 6, 12, inf], include_lowest=True)`:
right-closed intervals, the first one closed below at 0; values outside
every bin (negative times) become `NaN` (`none`). -/
def binOf (t : ℚ) : Option (Fin 6) :=
  if t < 0 then none
  else if t ≤ 1 / 4 then some 0
  else if t ≤ 1 then some 1
  else if t ≤ 3 then some 2
  else if t ≤ 6 then some 3
  else if t ≤ 12 then some 4
  else some 5

/-- `df['ResBin'] = pd.cut(df['Resolution Time (hrs)'], ...)` — the in-place
assignment of the binned column to the filtered DataFrame. -/
def assignResBin (df : List AlertEvent) : List AlertEvent :=
  df.map (fun r => { r with resBin := binOf r.resolutionHours })

/-- `res_time_counts = df['ResBin'].value_counts().sort_index()`: the count
of rows per bucket, one entry per categorical label, in bucket order. -/
def resTimeCounts (df : List AlertEvent) : List Nat :=
  (List.finRange 6).map
    (fun i => (assignResBin df).countP (fun r => decide (r.resBin = some i)))

theorem binOf_eq_some (t : ℚ) (h : 0 ≤ t) : ∃ j, binOf t = some j := by
  rw [binOf, if_neg (not_lt.mpr h)]
  split
  · exact ⟨_, rfl⟩
  split
  · exact ⟨_, rfl⟩
  split
  · exact ⟨_, rfl⟩
  split
  · exact ⟨_, rfl⟩
  split
  · exact ⟨_, rfl⟩
  · exact ⟨_, rfl⟩

theorem countP_assignResBin (df : List AlertEvent) (i : Fin 6) :
    (assignResBin df).countP (fun r => decide (r.resBin = some i)) =
      df.countP (fun r => decide (binOf r.resolutionHours = some i)) := by
  rw [assignResBin, List.countP_map]
  rfl

theorem sum_countP_binOf :
    ∀ df : List AlertEvent, (∀ r ∈ df, 0 ≤ r.resolutionHours) →
      (∑ i : Fin 6,
        df.countP (fun r => decide (binOf r.resolutionHours = some i))) = df.length := by
  intro df
  induction df with
  | nil => intro _; simp
  | cons r t ih =>
    intro h
    obtain ⟨j, hj⟩ := binOf_eq_some _ (h r (by simp))
    simp only [List.countP_cons, List.length_cons]
    rw [Finset.sum_add_distrib, ih (fun x hx => h x (by simp [hx]))]
    have hind : (∑ i : Fin 6,
        if (decide (binOf r.resolutionHours = some i)) = true then 1 else 0) = 1 := by
      simp only [hj, decide_eq_true_eq, Option.some_inj]
      rw [Finset.sum_ite_eq]
      simp
    omega

/-- A scenario row carrying a given resolution time. -/
def scenarioRow (q : ℚ) : AlertEvent :=
  { date := baseOrd, fleet := "Fleet A", vessel := "Vessel_1",
    alertType := "Speeding", resolutionHours := q, autoCleared := true }

/-- C5.  The binned distribution has exactly the 6 fixed buckets in bucket
order, its counts sum to the filtered row count (resolution times are
nonnegative), and the scenario times [0.1, 0.3, 1.5, 4, 7, 13] land one per
bucket. -/
theorem c5_res_bins (df : List AlertEvent)
    (h : ∀ r ∈ df, 0 ≤ r.resolutionHours) :
    (resTimeCounts df).length = 6 ∧
    (resTimeCounts df).sum = df.length ∧
    resTimeCounts ([(0.1 : ℚ), 0.3, 1.5, 4, 7, 13].map scenarioRow) =
      [1, 1, 1, 1, 1, 1] := by
  have hb0 : binOf (0.1 : ℚ) = some 0 := by simp only [binOf]; norm_num
  have hb1 : binOf (0.3 : ℚ) = some 1 := by simp only [binOf]; norm_num
  have hb2 : binOf (1.5 : ℚ) = some 2 := by simp only [binOf]; norm_num
  have hb3 : binOf (4 : ℚ) = some 3 := by simp only [binOf]; norm_num
  have hb4 : binOf (7 : ℚ) = some 4 := by simp only [binOf]; norm_num
  have hb5 : binOf (13 : ℚ) = some 5 := by simp only [binOf]; norm_num
  have hscen : resTimeCounts ([(0.1 : ℚ), 0.3, 1.5, 4, 7, 13].map scenarioRow) =
      [1, 1, 1, 1, 1, 1] := by
    have hcp : ∀ i : Fin 6,
        (assignResBin [scenarioRow 0.1, scenarioRow 0.3, scenarioRow 1.5,
            scenarioRow 4, scenarioRow 7, scenarioRow 13]).countP
            (fun r => decide (r.resBin = some i)) =
          ([(0.1 : ℚ), 0.3, 1.5, 4, 7, 13].countP
            (fun q => decide (binOf q = some i))) := by
      intro i
      show (assignResBin (([(0.1 : ℚ), 0.3, 1.5, 4, 7, 13]).map scenarioRow)).countP
            (fun r => decide (r.resBin = some i)) = _
      rw [countP_assignResBin, List.countP_map]
      rfl
    have hfr : List.finRange 6 = [0, 1, 2, 3, 4, 5] := rfl
    rw [resTimeCounts, hfr]
    simp only [List.map_cons, List.map_nil, hcp, List.countP_cons, List.countP_nil,
      hb0, hb1, hb2, hb3, hb4, hb5]
    rfl
  refine ⟨by simp [resTimeCounts], ?_, hscen⟩
  have hconv : (resTimeCounts df).sum =
      ∑ i : Fin 6,
        df.countP (fun r => decide (binOf r.resolutionHours = some i)) := by
    rw [resTimeCounts, ← Fin.sum_univ_def]
    congr 1
    funext i
    exact countP_assignResBin df i
  rw [hconv, sum_countP_binOf df h]

/-- C5 witness: the scenario table itself has nonnegative resolution times,
6 buckets, and bucket counts summing to its 6 rows. -/
theorem c5_res_bins_witness :
    (resTimeCounts ([(0.1 : ℚ), 0.3, 1.5, 4, 7, 13].map scenarioRow)).sum =
      ([(0.1 : ℚ), 0.3, 1.5, 4, 7, 13].map scenarioRow).length :=
  (c5_res_bins ([(0.1 : ℚ), 0.3, 1.5, 4, 7, 13].map scenarioRow)
    (by
      intro r hr
      simp only [List.map_cons, List.map_nil, List.mem_cons,
        List.not_mem_nil, or_false] at hr
      rcases hr with rfl | rfl | rfl | rfl | rfl | rfl <;>
        norm_num [scenarioRow])).2.1

/-- Descending-by-second-component comparison used by
`sort_values(ascending=False)` on counted/averaged series. -/
def descSnd {β : Type} [LinearOrder β] (a b : α × β) : Bool := decide (b.2 ≤ a.2)

/-- The distinct `(vessel, alert_type)` keys of
`df.groupby(['Vessel', 'Alert Type'])`. -/
def pairKeys (df : List AlertEvent) : List (String × String) :=
  (df.map (fun r => (r.vessel, r.alertType))).dedup

/-- Size of one `(vessel, alert_type)` group. -/
def pairCount (df : List AlertEvent) (k : String × String) : Nat :=
  df.countP (fun r => decide ((r.vessel, r.alertType) = k))

/-- `df.groupby(['Vessel', 'Alert Type']).size().reset_index(name='Count')`. -/
def pairCounts (df : List AlertEvent) : List ((String × String) × Nat) :=
  (pairKeys df).map (fun k => (k, pairCount df k))

/-- `repeat_alerts[repeat_alerts['Count'] >= 3].sort_values(by='Count',
ascending=False)`. -/
def repeatAlerts (df : List AlertEvent) : List ((String × String) × Nat) :=
  insSort descSnd ((pairCounts df).filter (fun p => decide (3 ≤ p.2)))

theorem descSnd_total {β : Type} [LinearOrder β] (a b : α × β) :
    descSnd a b = true ∨ descSnd b a = true := by
  simp only [descSnd, decide_eq_true_eq]
  exact le_total b.2 a.2

theorem descSnd_trans {β : Type} [LinearOrder β] (a b c : α × β)
    (h1 : descSnd a b = true) (h2 : descSnd b c = true) : descSnd a c = true := by
  simp only [descSnd, decide_eq_true_eq] at h1 h2 ⊢
  exact h2.trans h1

/-- C6.  The repeat-offender table holds exactly the `(vessel, alert_type)`
pairs whose occurrence count in the filtered set is at least 3 — each with
its true count, every qualifying pair present, no other pair present — and
its `Count` column is descending. -/
theorem c6_repeat_offenders (df : List AlertEvent) :
    (∀ k c, (k, c) ∈ repeatAlerts df ↔ c = pairCount df k ∧ 3 ≤ c) ∧
    (repeatAlerts df).Pairwise (fun a b => b.2 ≤ a.2) := by
  constructor
  · intro k c
    rw [repeatAlerts, mem_insSort, List.mem_filter]
    constructor
    · rintro ⟨hmem, hc⟩
      simp only [pairCounts, List.mem_map] at hmem
      obtain ⟨k', _, heq⟩ := hmem
      cases heq
      exact ⟨rfl, by simpa using hc⟩
    · rintro ⟨rfl, hc⟩
      refine ⟨?_, by simpa using hc⟩
      simp only [pairCounts, List.mem_map]
      refine ⟨k, ?_, rfl⟩
      have hpos : 0 < df.countP (fun r => decide ((r.vessel, r.alertType) = k)) := by
        have := hc
        rw [pairCount] at this
        omega
      obtain ⟨r, hr, hp⟩ := List.countP_pos_iff.mp hpos
      simp only [pairKeys, List.mem_dedup, List.mem_map]
      exact ⟨r, hr, by simpa using hp⟩
  · have hs := sorted_insSort descSnd (fun a b => descSnd_total a b)
      (fun a b c => descSnd_trans a b c)
      ((pairCounts df).filter (fun p => decide (3 ≤ p.2)))
    exact hs.imp (fun hab => by simpa [descSnd] using hab)

/-- C6 witness: in a four-row table where `(Vessel_1, Speeding)` occurs
three times, that pair appears in the repeat-offender table with count 3. -/
theorem c6_repeat_offenders_witness :
    (("Vessel_1", "Speeding"), 3) ∈ repeatAlerts
      [{ date := baseOrd, fleet := "Fleet A", vessel := "Vessel_1",
         alertType := "Speeding", resolutionHours := 1, autoCleared := true },
       { date := baseOrd, fleet := "Fleet A", vessel := "Vessel_1",
         alertType := "Speeding", resolutionHours := 2, autoCleared := false },
       { date := baseOrd + 1, fleet := "Fleet B", vessel := "Vessel_2",
         alertType := "AE Usage", resolutionHours := 3, autoCleared := true },
       { date := baseOrd + 1, fleet := "Fleet A", vessel := "Vessel_1",
         alertType := "Speeding", resolutionHours := 4, autoCleared := true }] :=
  ((c6_repeat_offenders _).1 ("Vessel_1", "Speeding") 3).mpr
    ⟨by decide, by decide⟩

/-- `keys.value_counts()` before ordering: one entry per distinct value with
its occurrence count (`groupby` + size). -/
def groupedCounts (keys : List String) : List (String × Nat) :=
  keys.dedup.map (fun k => (k, keys.count k))

/-- `Series.value_counts()`: occurrence counts in descending count order.
pandas sorts with the default `kind='quicksort'` and does not specify the
order of tied counts; `insSort` is one deterministic realisation
of the descending contract, and nothing tie-order-sensitive is proved of
this ordering. -/
def valueCounts (keys : List String) : List (String × Nat) :=
  insSort descSnd (groupedCounts keys)

/-- `top_alerts = df['Alert Type'].value_counts().head(5)`. -/
def topAlerts (df : List AlertEvent) : List (String × Nat) :=
  (valueCounts (df.map (·.alertType))).take 5

/-- `top_vessels = df['Vessel'].value_counts().head(5)`. -/
def topVessels (df : List AlertEvent) : List (String × Nat) :=
  (valueCounts (df.map (·.vessel))).take 5

/-- Mean resolution time of one alert-type group
(`df.groupby('Alert Type')['Resolution Time (hrs)'].mean()`; groups are
nonempty, so the mean is a plain rational). -/
def meanResOf (df : List AlertEvent) (k : String) : ℚ :=
  let g := (df.filter (fun r => decide (r.alertType = k))).map (·.resolutionHours)
  g.sum / g.length

/-- The per-alert-type mean resolution times before ordering. -/
def groupedMeans (df : List AlertEvent) : List (String × ℚ) :=
  (df.map (·.alertType)).dedup.map (fun k => (k, meanResOf df k))

/-- `slowest_types = df.groupby('Alert Type')['Resolution Time
(hrs)'].mean().sort_values(ascending=False).head(5)`.  As with
`valueCounts`, the tie order of `sort_values`' default kind is
unspecified; `insSort` realises only the descending contract. -/
def slowestTypes (df : List AlertEvent) : List (String × ℚ) :=
  (insSort descSnd (groupedMeans df)).take 5

/-- Ascending sort on `String` (sorted `groupby`/`unstack` axis order). -/
def sortAscStr (l : List String) : List String :=
  insSort (fun a b => decide (a ≤ b)) l

/-- Vessel axis of the heatmap: the distinct vessels present in the
filtered data (`groupby` index level 0) — not the full vocabulary. -/
def obsVessels (df : List AlertEvent) : List String :=
  sortAscStr (df.map (·.vessel)).dedup

/-- Alert-type axis of the heatmap: the distinct alert types present in
the filtered data (`unstack` columns) — not the full vocabulary. -/
def obsTypes (df : List AlertEvent) : List String :=
  sortAscStr (df.map (·.alertType)).dedup

/-- One cell of the heatmap: the number of filtered rows for the
`(vessel, alert_type)` pair (`fillna(0)` makes absent pairs 0). -/
def heatmapCell (df : List AlertEvent) (v t : String) : Nat :=
  df.countP (fun r => decide (r.vessel = v) && decide (r.alertType = t))

/-- `heatmap_df = df.groupby(['Vessel', 'Alert Type']).size().unstack().fillna(0)`:
a row per observed vessel, a column per observed alert type. -/
def heatmap (df : List AlertEvent) : List (String × List (String × Nat)) :=
  (obsVessels df).map (fun v =>
    (v, (obsTypes df).map (fun t => (t, heatmapCell df v t))))

/-- C8 counterexample: on a one-row table the heatmap has a single row for
the one observed vessel, although the vessel vocabulary holds 20 entries —
combinations over the full vocabularies (e.g. `Vessel_2`) are absent
entirely, not zero-filled. -/
theorem c8_vocab_counterexample :
    "Vessel_2" ∈ vessels ∧
    (heatmap [scenarioRow 1]).map Prod.fst = ["Vessel_1"] ∧
    "Vessel_2" ∉ (heatmap [scenarioRow 1]).map Prod.fst := by
  refine ⟨by decide, ?_, ?_⟩ <;> decide

/-- C8 (amended).  Over the vessels and alert types *present in the
filtered data*, the heatmap has every combination: the row axis is the
observed vessels, each row carries one column per observed alert type, the
cell is the count of rows with that pair, and a pair with no rows is
filled with zero. -/
theorem c8_heatmap_observed (df : List AlertEvent) (v t : String)
    (hv : v ∈ (df.map (·.vessel)).dedup)
    (ht : t ∈ (df.map (·.alertType)).dedup) :
    (heatmap df).map Prod.fst = obsVessels df ∧
    ∃ row, (v, row) ∈ heatmap df ∧ (t, heatmapCell df v t) ∈ row ∧
      heatmapCell df v t =
        df.countP (fun r => decide (r.vessel = v) && decide (r.alertType = t)) ∧
      ((∀ r ∈ df, ¬(r.vessel = v ∧ r.alertType = t)) →
        heatmapCell df v t = 0) := by
  refine ⟨?_, (obsTypes df).map (fun u => (u, heatmapCell df v u)), ?_, ?_, rfl, ?_⟩
  · rw [heatmap, List.map_map]
    exact List.map_id'' (fun x => rfl) _
  · simp only [heatmap, List.mem_map]
    refine ⟨v, ?_, rfl⟩
    simp only [obsVessels, sortAscStr, mem_insSort]
    exact hv
  · simp only [List.mem_map]
    refine ⟨t, ?_, rfl⟩
    simp only [obsTypes, sortAscStr, mem_insSort]
    exact ht
  · intro h
    rw [heatmapCell, List.countP_eq_zero]
    intro r hr
    simp only [Bool.and_eq_true, decide_eq_true_eq]
    intro hc
    exact h r hr hc

/-- C8 witness: the one-row table, at its own observed pair
(`Vessel_1`, `Speeding`). -/
theorem c8_heatmap_observed_witness :
    ∃ row, ("Vessel_1", row) ∈ heatmap [scenarioRow 1] ∧
      ("Speeding", heatmapCell [scenarioRow 1] "Vessel_1" "Speeding") ∈ row :=
  match c8_heatmap_observed [scenarioRow 1] "Vessel_1" "Speeding"
    (by decide) (by decide) with
  | ⟨_, row, hrow, hcell, _, _⟩ => ⟨row, hrow, hcell⟩

/-- The original (pre-`ResBin`) columns of a row. -/
def coreOf (r : AlertEvent) : Int × String × String × String × ℚ × Bool :=
  (r.date, r.fleet, r.vessel, r.alertType, r.resolutionHours, r.autoCleared)

/-- C9 counterexample: computing the binned resolution-time distribution is
not side-effect free — `df['ResBin'] = pd.cut(...)` changes the filtered
DataFrame itself (here: a one-row frame is no longer equal to itself after
the assignment, its `ResBin` column having appeared). -/
theorem c9_resbin_mutates :
    assignResBin [scenarioRow 13] ≠ [scenarioRow 13] := by
  have hb : binOf (13 : ℚ) = some 5 := by simp only [binOf]; norm_num
  intro h
  have h2 := congrArg (fun l => l.map (·.resBin)) h
  simp only [assignResBin, List.map_map, List.map_cons, List.map_nil,
    Function.comp, scenarioRow, hb] at h2
  simp at h2

/-- C9 (amended).  Every aggregation except the binned distribution leaves
the filtered set unchanged; the binned-distribution step mutates it only
by writing the derived `ResBin` column — every original column, the row
count and row order are preserved, the assignment is idempotent, and every
aggregation computed after it (and each KPI) yields the same value on the
mutated frame as on the original. -/
theorem c9_frame_preservation (df : List AlertEvent) :
    (assignResBin df).map coreOf = df.map coreOf ∧
    (assignResBin df).length = df.length ∧
    assignResBin (assignResBin df) = assignResBin df ∧
    totalAlerts (assignResBin df) = totalAlerts df ∧
    activeAlerts (assignResBin df) = activeAlerts df ∧
    resolvedAlerts (assignResBin df) = resolvedAlerts df ∧
    vesselsWithAlerts (assignResBin df) = vesselsWithAlerts df ∧
    autoClearedPercent (assignResBin df) = autoClearedPercent df ∧
    avgResolution (assignResBin df) = avgResolution df ∧
    withinSlaPct (assignResBin df) = withinSlaPct df ∧
    resolutionRate (assignResBin df) = resolutionRate df ∧
    alertsTime (assignResBin df) = alertsTime df ∧
    topAlerts (assignResBin df) = topAlerts df ∧
    topVessels (assignResBin df) = topVessels df ∧
    slowestTypes (assignResBin df) = slowestTypes df ∧
    repeatAlerts (assignResBin df) = repeatAlerts df ∧
    heatmap (assignResBin df) = heatmap df := by
  refine ⟨?_, ?_, ?_, ?_, ?_, ?_, ?_, ?_, ?_, ?_, ?_, ?_, ?_, ?_, ?_, ?_, ?_⟩
  · rw [assignResBin, List.map_map]; rfl
  · rw [assignResBin, List.length_map]
  · rw [assignResBin, assignResBin, List.map_map]; rfl
  · rw [totalAlerts, totalAlerts, assignResBin, List.length_map]
  · rw [activeAlerts, activeAlerts, ← List.countP_eq_length_filter,
      ← List.countP_eq_length_filter, assignResBin, List.countP_map]
    rfl
  · rw [resolvedAlerts, resolvedAlerts, ← List.countP_eq_length_filter,
      ← List.countP_eq_length_filter, assignResBin, List.countP_map]
    rfl
  · rw [vesselsWithAlerts, vesselsWithAlerts, assignResBin, List.map_map]; rfl
  · rw [autoClearedPercent, autoClearedPercent, assignResBin, List.map_map]; rfl
  · rw [avgResolution, avgResolution, assignResBin, List.map_map]; rfl
  · rw [withinSlaPct, withinSlaPct, assignResBin, List.map_map]; rfl
  · rw [resolutionRate, resolutionRate, assignResBin, List.length_map,
      List.countP_map]
    rfl
  · simp only [alertsTime, groupDates, sortAscInt, dateGroupSizes, sizeOn,
      lookupFill0, assignResBin, List.map_map, List.countP_map, List.filter_map]
    rfl
  · simp only [topAlerts, valueCounts, groupedCounts, assignResBin,
      List.map_map, List.count, List.countP_map]
    rfl
  · simp only [topVessels, valueCounts, groupedCounts, assignResBin,
      List.map_map, List.count, List.countP_map]
    rfl
  · simp only [slowestTypes, groupedMeans, meanResOf, assignResBin,
      List.map_map, List.filter_map]
    rfl
  · simp only [repeatAlerts, pairCounts, pairKeys, pairCount, assignResBin,
      List.map_map, List.countP_map]
    rfl
  · simp only [heatmap, obsVessels, obsTypes, heatmapCell, sortAscStr,
      assignResBin, List.map_map, List.countP_map]
    rfl

/-- C9 witness: the frame theorem at the one-row mutated table. -/
theorem c9_frame_preservation_witness :
    (assignResBin [scenarioRow 13]).map coreOf = [scenarioRow 13].map coreOf :=
  (c9_frame_preservation [scenarioRow 13]).1

theorem genDay_date (o : RandomOracle) (i : Nat) :
    ∀ r ∈ genDay o i, r.date = baseOrd + i := by
  intro r hr
  simp only [genDay, List.mem_map] at hr
  obtain ⟨j, _, rfl⟩ := hr
  rfl

theorem genDay_length_pos (o : RandomOracle) (i : Nat) :
    0 < (genDay o i).length := by
  simp only [genDay, List.length_map, List.length_range, rowsPerDay]
  omega

instance : Std.Antisymm (fun (a b : Int) => a ≤ b) :=
  ⟨fun h1 h2 => le_antisymm h1 h2⟩

theorem todayOf_genData (o : RandomOracle) :
    todayOf (genData o) = some (baseOrd + 120) := by
  rw [todayOf, List.max?_eq_some_iff (fun a => le_refl a)
    (fun a b => max_choice a b) (fun a b c => max_le_iff)]
  constructor
  · simp only [List.mem_map]
    obtain ⟨r, hr⟩ := List.exists_mem_of_length_pos (genDay_length_pos o 120)
    refine ⟨r, ?_, genDay_date o 120 r hr⟩
    simp only [genData, List.mem_flatten, List.mem_map]
    exact ⟨genDay o 120, ⟨120, by simp, rfl⟩, hr⟩
  · intro b hb
    simp only [List.mem_map] at hb
    obtain ⟨r, hr, rfl⟩ := hb
    simp only [genData, List.mem_flatten, List.mem_map] at hr
    obtain ⟨s, ⟨i, hi, rfl⟩, hrs⟩ := hr
    rw [genDay_date o i r hrs]
    simp only [List.mem_range] at hi
    omega

/-- C10.  The presets anchor on `df["Date"].max()` — for every random
draw the generated dataset's maximum date is `base_date + 120 days`
(2025-05-01), a value of the data, not of any wall clock.  At any civil
`today`, "Last 7 Days" resolves to the inclusive ordinal interval
`[today − 7, today]` spanning 8 calendar days, "Last 30 Days" to
`[today − 30, today]`, "Quarter to Date" starts on day 1 of the first
month of `today`'s quarter, and "Year to Date" on January 1 of `today`'s
year. -/
theorem c10_period_presets (o : RandomOracle) (t : Civil)
    (hm : 1 ≤ t.month ∧ t.month ≤ 12) :
    todayOf (genData o) = some (baseOrd + 120) ∧
    baseOrd + 120 = daysFromCivil ⟨2025, 5, 1⟩ ∧
    presetStart .last7 t = daysFromCivil t - 7 ∧
    presetEnd .last7 t = daysFromCivil t ∧
    presetEnd .last7 t - presetStart .last7 t + 1 = 8 ∧
    presetStart .last30 t = daysFromCivil t - 30 ∧
    presetEnd .last30 t = daysFromCivil t ∧
    presetStart .qtd t = daysFromCivil ⟨t.year, (t.month - 1) / 3 * 3 + 1, 1⟩ ∧
    ((t.month - 1) / 3 * 3 + 1) % 3 = 1 ∧
    (t.month - 1) / 3 * 3 + 1 ≤ t.month ∧
    ((t.month - 1) / 3 * 3 + 1 - 1) / 3 = (t.month - 1) / 3 ∧
    presetEnd .qtd t = daysFromCivil t ∧
    presetStart .ytd t = daysFromCivil ⟨t.year, 1, 1⟩ ∧
    presetEnd .ytd t = daysFromCivil t := by
  obtain ⟨h1, h2⟩ := hm
  have hq : ∀ m : Int, 1 ≤ m → m ≤ 12 →
      ((m - 1) / 3 * 3 + 1) % 3 = 1 ∧ (m - 1) / 3 * 3 + 1 ≤ m ∧
      ((m - 1) / 3 * 3 + 1 - 1) / 3 = (m - 1) / 3 := by
    intro m hm1 hm2
    interval_cases m <;> exact ⟨by decide, by decide, by decide⟩
  obtain ⟨hqa, hqb, hqc⟩ := hq t.month h1 h2
  refine ⟨todayOf_genData o, by decide, rfl, rfl, by
    simp only [presetStart, presetEnd]; ring, rfl, rfl, rfl, hqa, hqb, hqc,
    rfl, rfl, rfl⟩

/-- C10 witness: the all-zero oracle and `today` = 2025-05-01 (the
dataset's maximum date). -/
theorem c10_period_presets_witness :
    todayOf (genData ⟨fun _ => 0, fun _ _ => 0, fun _ _ => 0, fun _ _ => 0,
      fun _ _ => 0, fun _ _ => true⟩) = some (baseOrd + 120) ∧
    presetStart .qtd ⟨2025, 5, 1⟩ = daysFromCivil ⟨2025, 4, 1⟩ :=
  ⟨(c10_period_presets ⟨fun _ => 0, fun _ _ => 0, fun _ _ => 0, fun _ _ => 0,
      fun _ _ => 0, fun _ _ => true⟩ ⟨2025, 5, 1⟩ (by constructor <;> decide)).1,
   (c10_period_presets ⟨fun _ => 0, fun _ _ => 0, fun _ _ => 0, fun _ _ => 0,
      fun _ _ => 0, fun _ _ => true⟩ ⟨2025, 5, 1⟩ (by constructor <;> decide)).2.2.2.2.2.2.2.1⟩
